import Mathlib

/-!
# Resto frontend: identity and session call sites

A shallow embedding of the identity-related parts of the React client:

* `api.js`: the request that each identity helper hands to axios;
* `LoginModal.jsx`, `InviteAccept.jsx`, `PasswordResetConfirm.jsx`,
  `PasswordResetRequest.jsx`: the `submit` handlers, as functions from the
  form state and the behaviour of the environment (how the HTTP call settles,
  whether a callback throws) to the sequence of effects they perform;
* `ActiveSessions.jsx`: the rendered view as data.

JavaScript strings are sequences of UTF-16 code units, so that `.length` and
`===` / `!==` on strings are exactly list length and list equality.
-/

namespace Resto

/-! ## JavaScript values -/

/-- A JavaScript string: a sequence of UTF-16 code units. -/
abbrev JSString := List (Fin 65536)

/-- UTF-16 encoding of one Unicode scalar value. -/
def utf16 (c : Char) : List (Fin 65536) :=
  if c.toNat < 65536 then [Fin.ofNat c.toNat]
  else
    [Fin.ofNat (0xD800 + (c.toNat - 65536) / 1024),
     Fin.ofNat (0xDC00 + (c.toNat - 65536) % 1024)]

/-- A string literal of the source, as a JavaScript string. -/
def js (s : String) : JSString := s.toList.flatMap utf16

/-- Primitive JavaScript values.  `num n` is the integer-valued Number with
value `n` (every integer below 2^53 in magnitude is one); `nan` is the Number
`NaN`. -/
inductive Prim where
  | undefined
  | null
  | bool (b : Bool)
  | num (n : Int)
  | nan
  | str (s : JSString)
  deriving DecidableEq, Repr

/-- A JavaScript value: a primitive, or a plain object given by its own
properties in insertion order (keys are distinct, property values are
primitives). -/
inductive JSVal where
  | prim (p : Prim)
  | obj (fields : List (JSString × Prim))
  deriving DecidableEq, Repr

/-! ### Number to string

`Number::toString` of an integer-valued Number: the shortest decimal digit string
that still denotes the same double, written in full below 10^21 and in exponent
form from 10^21 on. -/

/-- Number of binary digits of `n`, for `n < 2 ^ fuel`. -/
def bitLength : Nat → Nat → Nat
  | 0, _ => 0
  | fuel + 1, n => if n = 0 then 0 else bitLength fuel (n / 2) + 1

/-- The double nearest to the natural number `n` (round to nearest, ties to
even), as a natural number; `none` when the result is `Infinity`. -/
def roundToDouble (n : Nat) : Option Nat :=
  if n < 2 ^ 53 then some n
  else if 2 ^ 1024 ≤ n then none
  else
    let shift := bitLength 1024 n - 53
    let q := n / 2 ^ shift
    let r := n % 2 ^ shift
    let half := 2 ^ (shift - 1)
    let q := if half < r || (r == half && q % 2 == 1) then q + 1 else q
    if q * 2 ^ shift < 2 ^ 1024 then some (q * 2 ^ shift) else none

/-- The decimal with the fewest significant digits whose nearest double is `v`;
among several, the one closest to `v`, and of two equally close ones the one
with the even last digit. -/
def shortestDecimal (v : Nat) : Nat :=
  let n := (Nat.toDigits 10 v).length
  let found := (List.range n).findSome? fun i =>
    let p := 10 ^ (n - (i + 1))
    let lo := v / p * p
    let hi := lo + p
    let okLo := roundToDouble lo == some v
    let okHi := roundToDouble hi == some v
    if okLo && okHi then
      if v - lo < hi - v then some lo
      else if hi - v < v - lo then some hi
      else if (lo / p) % 2 == 0 then some lo
      else some hi
    else if okLo then some lo
    else if okHi then some hi
    else none
  found.getD v

/-- The digits of `c` as `Number::toString` lays them out: in full when
`c < 10^21`, otherwise `d.ddd` followed by `e+` and the exponent. -/
def renderDecimal (c : Nat) : List Char :=
  let d := Nat.toDigits 10 c
  if c < 10 ^ 21 then d
  else
    let sig := (d.reverse.dropWhile (fun ch => ch == '0')).reverse
    let e := Nat.toDigits 10 (d.length - 1)
    match sig with
    | [] => d
    | [a] => a :: 'e' :: '+' :: e
    | a :: rest => a :: '.' :: (rest ++ 'e' :: '+' :: e)

/-- The operation `Number::toString` on the Number nearest to the integer
`n`. -/
def numberToString (n : Int) : JSString :=
  let sign : List Char := if n < 0 then ['-'] else []
  match roundToDouble n.natAbs with
  | none => js (String.mk (sign ++ "Infinity".toList))
  | some v =>
    if v < 2 ^ 53 then js (String.mk (sign ++ Nat.toDigits 10 v))
    else js (String.mk (sign ++ renderDecimal (shortestDecimal v)))

namespace Prim

/-- The abstract operation `ToBoolean`. -/
def truthy : Prim → Bool
  | undefined => false
  | null => false
  | bool b => b
  | num n => n != 0
  | nan => false
  | str s => !s.isEmpty

/-- The abstract operation `ToString`, as used by template literals and by
`+` with a string operand. -/
def toStr : Prim → JSString
  | undefined => js "undefined"
  | null => js "null"
  | bool true => js "true"
  | bool false => js "false"
  | num n => numberToString n
  | nan => js "NaN"
  | str s => s

/-- Strict equality `===` on primitives (`NaN` is not equal to itself). -/
def strictEq : Prim → Prim → Bool
  | nan, _ => false
  | _, nan => false
  | a, b => decide (a = b)

end Prim

namespace JSVal

/-- Property read `v.key`: `none` when the read throws a `TypeError` (the
value is `null` or `undefined`); a missing property reads as `undefined`. -/
def get (v : JSVal) (key : JSString) : Option Prim :=
  match v with
  | prim .undefined => none
  | prim .null => none
  | prim _ => some .undefined
  | obj fields =>
    match fields.find? (fun kv => kv.1 == key) with
    | some kv => some kv.2
    | none => some .undefined

end JSVal

/-! ## api.js -/

/-- HTTP method of an axios call. -/
inductive Method where
  | GET
  | POST
  deriving DecidableEq, Repr

/-- What an `API.get(url, config)` / `API.post(url, data, config)` call hands
to axios: the method, the path relative to `baseURL`, the `data` argument
(`none` when the argument is omitted) and `config.headers`. -/
structure Request where
  method : Method
  url : JSString
  data : Option JSVal
  headers : List (JSString × JSString)
  deriving DecidableEq, Repr

namespace Request

/-- Value of a header of the request, if it is set. -/
def header (r : Request) (name : JSString) : Option JSString :=
  (r.headers.find? (fun kv => kv.1 == name)).map (fun kv => kv.2)

end Request

/-- The config object `{ headers: { Authorization: "Bearer " + token } }`. -/
def bearer (token : Prim) : List (JSString × JSString) :=
  [(js "Authorization", js "Bearer " ++ token.toStr)]

/-- The helper `login(restaurantId, email, password)` (api.js, line 24). -/
def login (restaurantId email password : Prim) : Request :=
  { method := .POST, url := js "/login",
    data := some (.obj [(js "restaurantId", restaurantId), (js "email", email),
                        (js "password", password)]),
    headers := [] }

/-- The helper `verify(token)` (api.js, line 28). -/
def verify (token : Prim) : Request :=
  { method := .GET, url := js "/verify", data := none, headers := bearer token }

/-- The helper `adminInvite(restaurantId, email, role, token)` (api.js, line 42). -/
def adminInvite (restaurantId email role token : Prim) : Request :=
  { method := .POST, url := js "/admin/invite/" ++ restaurantId.toStr,
    data := some (.obj [(js "email", email), (js "role", role)]),
    headers := bearer token }

/-- The helper `acceptInvite(tokenStr, password)` (api.js, line 45). -/
def acceptInvite (tokenStr password : Prim) : Request :=
  { method := .POST, url := js "/admin/invite/accept",
    data := some (.obj [(js "token", tokenStr), (js "password", password)]),
    headers := [] }

/-- The helper `requestPasswordReset(restaurantId, email)` (api.js, line 49). -/
def requestPasswordReset (restaurantId email : Prim) : Request :=
  { method := .POST, url := js "/admin/password_reset/request",
    data := some (.obj [(js "restaurantId", restaurantId), (js "email", email)]),
    headers := [] }

/-- The helper `confirmPasswordReset(token, password)` (api.js, line 52). -/
def confirmPasswordReset (token password : Prim) : Request :=
  { method := .POST, url := js "/admin/password_reset/confirm",
    data := some (.obj [(js "token", token), (js "password", password)]),
    headers := [] }

/-- The helper `refreshSession()` (api.js, line 56). -/
def refreshSession : Request :=
  { method := .POST, url := js "/refresh", data := none, headers := [] }

/-- The helper `logout()` (api.js, line 59). -/
def logout : Request :=
  { method := .POST, url := js "/logout", data := none, headers := [] }

/-- The helper `adminGetSessions(restaurantId, token)` (api.js, line 67). -/
def adminGetSessions (restaurantId token : Prim) : Request :=
  { method := .GET, url := js "/admin/sessions/" ++ restaurantId.toStr,
    data := none, headers := bearer token }

/-- The helper `adminRevokeSession(sessionId, token)` (api.js, line 70). -/
def adminRevokeSession (sessionId token : Prim) : Request :=
  { method := .POST, url := js "/admin/sessions/revoke",
    data := some (.obj [(js "sessionId", sessionId)]), headers := bearer token }

/-- The helper `adminRevokeOtherSessions(token)` (api.js, line 73). -/
def adminRevokeOtherSessions (token : Prim) : Request :=
  { method := .POST, url := js "/admin/sessions/revoke_all",
    data := some (.obj []), headers := bearer token }

/-! ## Effects of the event handlers -/

/-- How the promise awaited by a handler settles.  `resolved data` carries the
`r.data` that the api helper resolves with, `rejected e` the rejection reason;
`pending` is a promise that never settles. -/
inductive Outcome where
  | resolved (data : JSVal)
  | rejected (e : JSVal)
  | pending
  deriving DecidableEq, Repr

/-- The observable actions of the `submit` handlers, in program order. -/
inductive Effect where
  | setStatus (s : JSString)
  | setErr (s : JSString)
  | request (r : Request)
  | onLogin (arg : JSVal)
  | consoleError (e : JSVal)
  | setTimeout (ms : Nat) (navigateTo : JSString)
  deriving DecidableEq, Repr

/-- The HTTP requests issued by a run, in order. -/
def requests (es : List Effect) : List Request :=
  es.filterMap (fun e => match e with | .request r => some r | _ => none)

/-- The arguments of the `onLogin` calls of a run, in order. -/
def onLoginCalls (es : List Effect) : List JSVal :=
  es.filterMap (fun e => match e with | .onLogin a => some a | _ => none)

/-- The values passed to `setErr` by a run, in order. -/
def errWrites (es : List Effect) : List JSString :=
  es.filterMap (fun e => match e with | .setErr s => some s | _ => none)

/-- The `status` state after a run that started from `init`. -/
def statusAfter (init : JSString) (es : List Effect) : JSString :=
  es.foldl (fun st e => match e with | .setStatus s => s | _ => st) init

/-- The `err` state after a run that started from `init`. -/
def errAfter (init : JSString) (es : List Effect) : JSString :=
  es.foldl (fun st e => match e with | .setErr s => s | _ => st) init

/-- The result of `URLSearchParams.get`, a string or `null`, as a value. -/
def searchParam (p : Option JSString) : Prim :=
  match p with
  | none => .null
  | some s => .str s

/-! ## LoginModal.jsx -/

namespace LoginModal

/-- The handler `LoginModal.submit`: the `onLogin` call and the three property
reads are inside the `try`, so anything they throw reaches the `catch`.  Here
`http` tells how the `login` promise settles, and `onLogin arg` is `some e` when
the `onLogin` prop throws `e` on `arg` (`none` when it returns). -/
def submit (restaurantId : Prim) (email password : JSString)
    (http : Request → Outcome) (onLogin : JSVal → Option JSVal) : List Effect :=
  let req := login restaurantId (.str email) (.str password)
  match http req with
  | .pending => [.request req]
  | .rejected _ => [.request req, .setErr (js "Login failed")]
  | .resolved res =>
    match res.get (js "token"), res.get (js "role"), res.get (js "currentSessionId") with
    | some token, some role, some sid =>
      let arg := JSVal.obj [(js "accessToken", token), (js "role", role),
                            (js "currentSessionId", sid)]
      match onLogin arg with
      | none => [.request req, .onLogin arg]
      | some _ => [.request req, .onLogin arg, .setErr (js "Login failed")]
    | _, _, _ => [.request req, .setErr (js "Login failed")]

/-- The error line of the modal, `err && <div>...</div>`: shown when `err` is
a non-empty string. -/
def errorShown (err : JSString) : Option JSString :=
  if (Prim.str err).truthy then some err else none

end LoginModal

/-! ## InviteAccept.jsx -/

namespace InviteAccept

/-- The handler `InviteAccept.submit`.  Here `token` and `restaurantId` are the two search
parameters, `password` and `confirm` the two input fields. -/
def submit (token restaurantId : Option JSString) (password confirm : JSString)
    (http : Request → Outcome) : List Effect :=
  if !(searchParam token).truthy then [.setStatus (js "Missing token")]
  else if password.length < 8 then
    [.setStatus (js "Password must be at least 8 characters")]
  else if password ≠ confirm then [.setStatus (js "Passwords do not match")]
  else
    let req := acceptInvite (searchParam token) (.str password)
    [.setStatus (js "Submitting..."), .request req] ++
      match http req with
      | .resolved _ =>
        [.setStatus (js "Account created. Redirecting to login..."),
         .setTimeout 1200
           (js "/restaurant/" ++ (searchParam restaurantId).toStr ++ js "/admin")]
      | .rejected e =>
        [.consoleError e,
         .setStatus (js "Failed to accept invite. The token may be invalid or expired.")]
      | .pending => []

end InviteAccept

/-! ## PasswordResetConfirm.jsx -/

namespace PasswordResetConfirm

/-- The handler `PasswordResetConfirm.submit`, with the same parameters as
`InviteAccept.submit`. -/
def submit (token restaurantId : Option JSString) (password confirm : JSString)
    (http : Request → Outcome) : List Effect :=
  if !(searchParam token).truthy then [.setStatus (js "Missing token")]
  else if password.length < 8 then
    [.setStatus (js "Password must be at least 8 characters")]
  else if password ≠ confirm then [.setStatus (js "Passwords do not match")]
  else
    let req := confirmPasswordReset (searchParam token) (.str password)
    [.setStatus (js "Submitting..."), .request req] ++
      match http req with
      | .resolved _ =>
        [.setStatus (js "Password set. Redirecting to admin login..."),
         .setTimeout 1200
           (js "/restaurant/" ++ (searchParam restaurantId).toStr ++ js "/admin")]
      | .rejected e =>
        [.consoleError e,
         .setStatus (js "Failed to reset password. The token may be invalid or expired.")]
      | .pending => []

end PasswordResetConfirm

/-! ## PasswordResetRequest.jsx -/

/-- The code units skipped by `parseInt` at the start of its input
(`WhiteSpace` and `LineTerminator`). -/
def isStrWhiteSpace (u : Fin 65536) : Bool :=
  u.val ∈ [0x09, 0x0A, 0x0B, 0x0C, 0x0D, 0x20, 0xA0, 0x1680, 0x2028, 0x2029,
           0x202F, 0x205F, 0x3000, 0xFEFF]
    || (0x2000 ≤ u.val && u.val ≤ 0x200A)

/-- ASCII decimal digit. -/
def isDigit (u : Fin 65536) : Bool := 48 ≤ u.val && u.val ≤ 57

/-- The builtin `parseInt(s, 10)` on a string: leading white space is skipped, one sign is
accepted, the longest run of decimal digits is read; `NaN` when that run is
empty.  (Values are exact integers: the rounding of a Number beyond 2^53 and
the sign of a zero are not represented.) -/
def parseInt10 (s : JSString) : Prim :=
  let t := s.dropWhile isStrWhiteSpace
  let neg := match t with
    | u :: _ => u.val == 45
    | [] => false
  let body := match t with
    | u :: rest => if u.val == 45 || u.val == 43 then rest else t
    | [] => []
  let digits := body.takeWhile isDigit
  if digits.isEmpty then .nan
  else
    let n : Nat := digits.foldl (fun acc d => 10 * acc + (d.val - 48)) 0
    .num (if neg then -(n : Int) else (n : Int))

namespace PasswordResetRequest

/-- The handler `PasswordResetRequest.submit`.  Here `restaurantId` and `email` are the contents
of the two text fields. -/
def submit (restaurantId email : JSString) (http : Request → Outcome) : List Effect :=
  if !(Prim.str email).truthy then [.setStatus (js "Enter your email")]
  else
    let req := requestPasswordReset (parseInt10 restaurantId) (.str email)
    [.setStatus (js "Sending reset email..."), .request req] ++
      match http req with
      | .resolved _ => [.setStatus (js "If that email exists, a reset link has been sent.")]
      | .rejected e =>
        [.consoleError e, .setStatus (js "Failed to request reset (try again later).")]
      | .pending => []

end PasswordResetRequest

/-! ## ActiveSessions.jsx -/

/-- One element of the `sessions` prop.  `createdAt` is the time value (ms
since the epoch) that `new Date(s.createdAt)` holds. -/
structure Session where
  id : Prim
  adminEmail : Prim
  createdAt : Int
  expiresAt : Prim
  ip : Prim
  userAgent : Prim
  revoked : Prim
  deriving DecidableEq, Repr

/-- The `sessions` prop: absent, `null`, or an array of sessions. -/
inductive SessionsProp where
  | undefined
  | null
  | array (xs : List Session)
  deriving DecidableEq, Repr

/-- One rendered row.  `revoke = some a` is a Revoke button whose `onClick`
calls `onRevoke(a)`; `revoke = none` is the `null` rendered instead. -/
structure Row where
  key : Prim
  highlighted : Bool
  adminEmail : Prim
  thisSession : Bool
  created : Int
  expires : Option Prim
  ip : Prim
  userAgent : Prim
  status : JSString
  revoke : Option Prim
  deriving DecidableEq, Repr

/-- What the component returns. -/
inductive View where
  | noActiveSessions
  | rows (rs : List Row)
  deriving DecidableEq, Repr

namespace View

/-- The rows of a view, top to bottom. -/
def toRows : View → List Row
  | noActiveSessions => []
  | rows rs => rs

end View

/-- The body of `sessions.map(s => ...)` for one session. -/
def renderRow (currentSessionId : Prim) (s : Session) : Row :=
  { key := s.id
    highlighted := s.id.strictEq currentSessionId
    adminEmail := s.adminEmail
    thisSession := s.id.strictEq currentSessionId
    created := s.createdAt
    expires := if s.expiresAt.truthy then some s.expiresAt else none
    ip := if s.ip.truthy then s.ip else .str (js "—")
    userAgent := s.userAgent
    status := if s.revoked.truthy then js "revoked" else js "active"
    revoke := if !s.revoked.truthy && !(s.id.strictEq currentSessionId) then some s.id
              else none }

/-- The component `ActiveSessions({ sessions = [], currentSessionId, onRevoke })`:
the default `[]` applies to an absent prop only, `null` is caught by `!sessions`. -/
def ActiveSessions (sessions : SessionsProp) (currentSessionId : Prim) : View :=
  let sessions : Option (List Session) :=
    match sessions with
    | .undefined => some []
    | .null => none
    | .array xs => some xs
  match sessions with
  | none => .noActiveSessions
  | some xs =>
    if xs.length == 0 then .noActiveSessions
    else .rows (xs.map (renderRow currentSessionId))

/-! ## Lemmas on the two redemption forms -/

theorem searchParam_truthy_iff (token : Option JSString) :
    (searchParam token).truthy = true ↔ ∃ tok, token = some tok ∧ tok ≠ [] := by
  cases token with
  | none => simp [searchParam, Prim.truthy]
  | some tok => cases tok <;> simp [searchParam, Prim.truthy]

theorem searchParam_falsy_iff (token : Option JSString) :
    (searchParam token).truthy = false ↔ token = none ∨ token = some [] := by
  cases token with
  | none => simp [searchParam, Prim.truthy]
  | some tok => cases tok <;> simp [searchParam, Prim.truthy]

namespace InviteAccept

theorem invite_submit_missing (token rid : Option JSString) (password confirm : JSString)
    (http : Request → Outcome) (h : (searchParam token).truthy = false) :
    submit token rid password confirm http = [.setStatus (js "Missing token")] := by
  simp [submit, h]

theorem invite_submit_short (token rid : Option JSString) (password confirm : JSString)
    (http : Request → Outcome) (h : (searchParam token).truthy = true)
    (hlen : password.length < 8) :
    submit token rid password confirm http
      = [.setStatus (js "Password must be at least 8 characters")] := by
  simp [submit, h, hlen]

theorem invite_submit_mismatch (token rid : Option JSString) (password confirm : JSString)
    (http : Request → Outcome) (h : (searchParam token).truthy = true)
    (hlen : 8 ≤ password.length) (hne : password ≠ confirm) :
    submit token rid password confirm http = [.setStatus (js "Passwords do not match")] := by
  simp [submit, h, Nat.not_lt.mpr hlen, hne]

theorem invite_requests_submit_send (token rid : Option JSString) (password confirm : JSString)
    (http : Request → Outcome) (h : (searchParam token).truthy = true)
    (hlen : 8 ≤ password.length) (heq : password = confirm) :
    requests (submit token rid password confirm http)
      = [acceptInvite (searchParam token) (.str password)] := by
  subst heq
  simp only [submit, h, Nat.not_lt.mpr hlen]
  cases http (acceptInvite (searchParam token) (.str password)) <;> simp [requests]

end InviteAccept

namespace PasswordResetConfirm

theorem reset_submit_missing (token rid : Option JSString) (password confirm : JSString)
    (http : Request → Outcome) (h : (searchParam token).truthy = false) :
    submit token rid password confirm http = [.setStatus (js "Missing token")] := by
  simp [submit, h]

theorem reset_submit_short (token rid : Option JSString) (password confirm : JSString)
    (http : Request → Outcome) (h : (searchParam token).truthy = true)
    (hlen : password.length < 8) :
    submit token rid password confirm http
      = [.setStatus (js "Password must be at least 8 characters")] := by
  simp [submit, h, hlen]

theorem reset_submit_mismatch (token rid : Option JSString) (password confirm : JSString)
    (http : Request → Outcome) (h : (searchParam token).truthy = true)
    (hlen : 8 ≤ password.length) (hne : password ≠ confirm) :
    submit token rid password confirm http = [.setStatus (js "Passwords do not match")] := by
  simp [submit, h, Nat.not_lt.mpr hlen, hne]

theorem reset_requests_submit_send (token rid : Option JSString) (password confirm : JSString)
    (http : Request → Outcome) (h : (searchParam token).truthy = true)
    (hlen : 8 ≤ password.length) (heq : password = confirm) :
    requests (submit token rid password confirm http)
      = [confirmPasswordReset (searchParam token) (.str password)] := by
  subst heq
  simp only [submit, h, Nat.not_lt.mpr hlen]
  cases http (confirmPasswordReset (searchParam token) (.str password)) <;> simp [requests]

end PasswordResetConfirm

/-! ## C1: minimum password length on the client -/

/-- C1: whenever `password.length < 8` (code units), whatever the token and the
confirm field are, neither form issues a request; and when a token is present,
that is, when the page's own test `!token` is false (it calls `null` and the
empty string alike a missing token), the resulting status is exactly
"Password must be at least 8 characters". -/
theorem C1_short_password_never_sent (token rid : Option JSString)
    (password confirm : JSString) (http : Request → Outcome) (init : JSString)
    (hlen : password.length < 8) :
    requests (InviteAccept.submit token rid password confirm http) = [] ∧
    requests (PasswordResetConfirm.submit token rid password confirm http) = [] ∧
    ((searchParam token).truthy = true →
      statusAfter init (InviteAccept.submit token rid password confirm http)
        = js "Password must be at least 8 characters" ∧
      statusAfter init (PasswordResetConfirm.submit token rid password confirm http)
        = js "Password must be at least 8 characters") := by
  cases htok : (searchParam token).truthy with
  | false =>
    rw [InviteAccept.invite_submit_missing _ _ _ _ _ htok,
      PasswordResetConfirm.reset_submit_missing _ _ _ _ _ htok]
    exact ⟨rfl, rfl, fun h => absurd h (by simp)⟩
  | true =>
    rw [InviteAccept.invite_submit_short _ _ _ _ _ htok hlen,
      PasswordResetConfirm.reset_submit_short _ _ _ _ _ htok hlen]
    exact ⟨rfl, rfl, fun _ => ⟨rfl, rfl⟩⟩

/-- Witness for C1: token "tk", password "short", confirm "other". -/
theorem C1_short_password_never_sent_witness :
    (js "short").length < 8 ∧ (searchParam (some (js "tk"))).truthy = true ∧
    requests (InviteAccept.submit (some (js "tk")) none (js "short") (js "other")
      (fun _ => .resolved (.obj []))) = [] ∧
    requests (PasswordResetConfirm.submit (some (js "tk")) none (js "short") (js "other")
      (fun _ => .resolved (.obj []))) = [] ∧
    statusAfter [] (InviteAccept.submit (some (js "tk")) none (js "short") (js "other")
      (fun _ => .resolved (.obj []))) = js "Password must be at least 8 characters" ∧
    statusAfter [] (PasswordResetConfirm.submit (some (js "tk")) none (js "short") (js "other")
      (fun _ => .resolved (.obj []))) = js "Password must be at least 8 characters" :=
  have h := C1_short_password_never_sent (some (js "tk")) none (js "short") (js "other")
    (fun _ => .resolved (.obj [])) [] (by decide)
  ⟨by decide, by decide, h.1, h.2.1, (h.2.2 (by decide)).1, (h.2.2 (by decide)).2⟩

/-! ## C10: send condition and check order of the redemption forms -/

/-- C10: `InviteAccept.submit` (resp. `PasswordResetConfirm.submit`) issues a
request if and only if the token is present and non-empty, the password has at
least 8 code units and equals the confirm field; it is then the single request
`acceptInvite(token, password)` (resp. `confirmPasswordReset(token, password)`)
with both arguments unmodified.  Otherwise nothing is sent and the status is the
first failing check, in the order "Missing token",
"Password must be at least 8 characters", "Passwords do not match". -/
theorem C10_redemption_send_condition (token rid : Option JSString)
    (password confirm : JSString) (http : Request → Outcome) (init : JSString) :
    ((requests (InviteAccept.submit token rid password confirm http) ≠ [] ↔
        ∃ tok, token = some tok ∧ tok ≠ [] ∧ 8 ≤ password.length ∧ password = confirm) ∧
     (requests (PasswordResetConfirm.submit token rid password confirm http) ≠ [] ↔
        ∃ tok, token = some tok ∧ tok ≠ [] ∧ 8 ≤ password.length ∧ password = confirm)) ∧
    (∀ tok, token = some tok → tok ≠ [] → 8 ≤ password.length → password = confirm →
      requests (InviteAccept.submit token rid password confirm http)
        = [acceptInvite (.str tok) (.str password)] ∧
      requests (PasswordResetConfirm.submit token rid password confirm http)
        = [confirmPasswordReset (.str tok) (.str password)]) ∧
    ((token = none ∨ token = some []) →
      statusAfter init (InviteAccept.submit token rid password confirm http)
        = js "Missing token" ∧
      statusAfter init (PasswordResetConfirm.submit token rid password confirm http)
        = js "Missing token") ∧
    (∀ tok, token = some tok → tok ≠ [] → password.length < 8 →
      statusAfter init (InviteAccept.submit token rid password confirm http)
        = js "Password must be at least 8 characters" ∧
      statusAfter init (PasswordResetConfirm.submit token rid password confirm http)
        = js "Password must be at least 8 characters") ∧
    (∀ tok, token = some tok → tok ≠ [] → 8 ≤ password.length → password ≠ confirm →
      statusAfter init (InviteAccept.submit token rid password confirm http)
        = js "Passwords do not match" ∧
      statusAfter init (PasswordResetConfirm.submit token rid password confirm http)
        = js "Passwords do not match") := by
  have hsend : ∀ tok, token = some tok → tok ≠ [] → 8 ≤ password.length →
      password = confirm →
      requests (InviteAccept.submit token rid password confirm http)
        = [acceptInvite (.str tok) (.str password)] ∧
      requests (PasswordResetConfirm.submit token rid password confirm http)
        = [confirmPasswordReset (.str tok) (.str password)] := by
    intro tok h1 h2 h3 h4
    have ht := (searchParam_truthy_iff token).mpr ⟨tok, h1, h2⟩
    rw [InviteAccept.invite_requests_submit_send _ _ _ _ _ ht h3 h4,
      PasswordResetConfirm.reset_requests_submit_send _ _ _ _ _ ht h3 h4]
    subst h1
    exact ⟨rfl, rfl⟩
  have hnone : ¬ (∃ tok, token = some tok ∧ tok ≠ [] ∧ 8 ≤ password.length ∧
      password = confirm) →
      requests (InviteAccept.submit token rid password confirm http) = [] ∧
      requests (PasswordResetConfirm.submit token rid password confirm http) = [] := by
    intro hn
    cases htok : (searchParam token).truthy with
    | false =>
      rw [InviteAccept.invite_submit_missing _ _ _ _ _ htok,
        PasswordResetConfirm.reset_submit_missing _ _ _ _ _ htok]
      exact ⟨rfl, rfl⟩
    | true =>
      by_cases hlen : password.length < 8
      · rw [InviteAccept.invite_submit_short _ _ _ _ _ htok hlen,
          PasswordResetConfirm.reset_submit_short _ _ _ _ _ htok hlen]
        exact ⟨rfl, rfl⟩
      · have hlen8 : 8 ≤ password.length := Nat.not_lt.mp hlen
        have hne : password ≠ confirm := by
          intro heq
          obtain ⟨tok, h1, h2⟩ := (searchParam_truthy_iff token).mp htok
          exact hn ⟨tok, h1, h2, hlen8, heq⟩
        rw [InviteAccept.invite_submit_mismatch _ _ _ _ _ htok hlen8 hne,
          PasswordResetConfirm.reset_submit_mismatch _ _ _ _ _ htok hlen8 hne]
        exact ⟨rfl, rfl⟩
  refine ⟨⟨⟨?_, ?_⟩, ⟨?_, ?_⟩⟩, hsend, ?_, ?_, ?_⟩
  · intro hreq
    by_contra hn
    exact hreq (hnone hn).1
  · rintro ⟨tok, h1, h2, h3, h4⟩
    rw [(hsend tok h1 h2 h3 h4).1]
    simp
  · intro hreq
    by_contra hn
    exact hreq (hnone hn).2
  · rintro ⟨tok, h1, h2, h3, h4⟩
    rw [(hsend tok h1 h2 h3 h4).2]
    simp
  · intro h
    have ht := (searchParam_falsy_iff token).mpr h
    rw [InviteAccept.invite_submit_missing _ _ _ _ _ ht,
      PasswordResetConfirm.reset_submit_missing _ _ _ _ _ ht]
    exact ⟨rfl, rfl⟩
  · intro tok h1 h2 hlen
    have ht := (searchParam_truthy_iff token).mpr ⟨tok, h1, h2⟩
    rw [InviteAccept.invite_submit_short _ _ _ _ _ ht hlen,
      PasswordResetConfirm.reset_submit_short _ _ _ _ _ ht hlen]
    exact ⟨rfl, rfl⟩
  · intro tok h1 h2 hlen hne
    have ht := (searchParam_truthy_iff token).mpr ⟨tok, h1, h2⟩
    rw [InviteAccept.invite_submit_mismatch _ _ _ _ _ ht hlen hne,
      PasswordResetConfirm.reset_submit_mismatch _ _ _ _ _ ht hlen hne]
    exact ⟨rfl, rfl⟩

/-- Witness for C10: one form state for each of the four outcomes. -/
theorem C10_redemption_send_condition_witness :
    (requests (InviteAccept.submit (some (js "tk")) none (js "12345678") (js "12345678")
        (fun _ => .resolved (.obj [])))
      = [acceptInvite (.str (js "tk")) (.str (js "12345678"))] ∧
     requests (PasswordResetConfirm.submit (some (js "tk")) none (js "12345678")
        (js "12345678") (fun _ => .resolved (.obj [])))
      = [confirmPasswordReset (.str (js "tk")) (.str (js "12345678"))]) ∧
    (statusAfter [] (InviteAccept.submit none none (js "12345678") (js "12345678")
        (fun _ => .resolved (.obj []))) = js "Missing token" ∧
     statusAfter [] (PasswordResetConfirm.submit none none (js "12345678") (js "12345678")
        (fun _ => .resolved (.obj []))) = js "Missing token") ∧
    (statusAfter [] (InviteAccept.submit (some (js "tk")) none (js "short") (js "other")
        (fun _ => .resolved (.obj []))) = js "Password must be at least 8 characters" ∧
     statusAfter [] (PasswordResetConfirm.submit (some (js "tk")) none (js "short")
        (js "other") (fun _ => .resolved (.obj [])))
      = js "Password must be at least 8 characters") ∧
    (statusAfter [] (InviteAccept.submit (some (js "tk")) none (js "12345678")
        (js "12345679") (fun _ => .resolved (.obj []))) = js "Passwords do not match" ∧
     statusAfter [] (PasswordResetConfirm.submit (some (js "tk")) none (js "12345678")
        (js "12345679") (fun _ => .resolved (.obj []))) = js "Passwords do not match") :=
  ⟨(C10_redemption_send_condition (some (js "tk")) none (js "12345678") (js "12345678")
      (fun _ => .resolved (.obj [])) []).2.1 (js "tk") rfl (by decide) (by decide) rfl,
   (C10_redemption_send_condition none none (js "12345678") (js "12345678")
      (fun _ => .resolved (.obj [])) []).2.2.1 (Or.inl rfl),
   (C10_redemption_send_condition (some (js "tk")) none (js "short") (js "other")
      (fun _ => .resolved (.obj [])) []).2.2.2.1 (js "tk") rfl (by decide) (by decide),
   (C10_redemption_send_condition (some (js "tk")) none (js "12345678") (js "12345679")
      (fun _ => .resolved (.obj [])) []).2.2.2.2 (js "tk") rfl (by decide) (by decide)
      (by decide)⟩

/-! ## C4, C6: LoginModal -/

/-- C4, as stated, fails on two kinds of successful responses: when the
`onLogin` prop throws, the `catch` sets the error message although the response
was successful and `onLogin` was called; and when the response data is `null`,
reading `res.token` throws, `onLogin` is not called and the error is set. -/
theorem C4_login_mapping_counterexample :
    (LoginModal.submit (.num 1) (js "a@x.com") (js "password123")
        (fun _ => .resolved (.obj [(js "token", .str (js "T1")),
          (js "role", .str (js "owner")), (js "currentSessionId", .str (js "S1"))]))
        (fun _ => some (.prim .undefined))
      = [.request (login (.num 1) (.str (js "a@x.com")) (.str (js "password123"))),
         .onLogin (.obj [(js "accessToken", .str (js "T1")),
           (js "role", .str (js "owner")), (js "currentSessionId", .str (js "S1"))]),
         .setErr (js "Login failed")]) ∧
    (LoginModal.submit (.num 1) (js "a@x.com") (js "password123")
        (fun _ => .resolved (.prim .null)) (fun _ => none)
      = [.request (login (.num 1) (.str (js "a@x.com")) (.str (js "password123"))),
         .setErr (js "Login failed")]) := by
  decide

/-- C4, amended: for every successful login response `res` other than `null`
and `undefined`, `LoginModal.submit` calls `onLogin` exactly once, with
`{accessToken: res.token, role: res.role, currentSessionId: res.currentSessionId}`
(a field that `res` lacks reads as `undefined`), and, provided that call returns
normally, does not set the error message; when login fails, `onLogin` is never
called. -/
theorem C4_login_result_mapping (restaurantId : Prim) (email password : JSString)
    (http : Request → Outcome) (onLogin : JSVal → Option JSVal) :
    (∀ res, http (login restaurantId (.str email) (.str password)) = .resolved res →
      res ≠ .prim .null → res ≠ .prim .undefined →
      onLoginCalls (LoginModal.submit restaurantId email password http onLogin)
        = [.obj [(js "accessToken", (res.get (js "token")).getD .undefined),
                 (js "role", (res.get (js "role")).getD .undefined),
                 (js "currentSessionId",
                   (res.get (js "currentSessionId")).getD .undefined)]] ∧
      (onLogin (.obj [(js "accessToken", (res.get (js "token")).getD .undefined),
                      (js "role", (res.get (js "role")).getD .undefined),
                      (js "currentSessionId",
                        (res.get (js "currentSessionId")).getD .undefined)]) = none →
        errWrites (LoginModal.submit restaurantId email password http onLogin) = [])) ∧
    (∀ e, http (login restaurantId (.str email) (.str password)) = .rejected e →
      onLoginCalls (LoginModal.submit restaurantId email password http onLogin) = []) := by
  constructor
  · intro res hres hnull hundef
    have hget : ∀ key, ∃ v, res.get key = some v := by
      intro key
      cases res with
      | prim p =>
        cases p <;> first
          | exact absurd rfl hnull
          | exact absurd rfl hundef
          | exact ⟨_, rfl⟩
      | obj fields =>
        simp only [JSVal.get]
        cases fields.find? (fun kv => kv.1 == key) <;> exact ⟨_, rfl⟩
    obtain ⟨token, ht⟩ := hget (js "token")
    obtain ⟨role, hr⟩ := hget (js "role")
    obtain ⟨sid, hs⟩ := hget (js "currentSessionId")
    rw [ht, hr, hs]
    simp only [Option.getD_some]
    constructor
    · simp only [LoginModal.submit, hres, ht, hr, hs]
      cases onLogin (.obj [(js "accessToken", token), (js "role", role),
        (js "currentSessionId", sid)]) <;> rfl
    · intro hok
      simp only [LoginModal.submit, hres, ht, hr, hs, hok]
      rfl
  · intro e he
    simp only [LoginModal.submit, he]
    rfl

/-- Witness for C4 (amended): a successful response with the three wire fields
and a callback that returns, and a rejected login. -/
theorem C4_login_result_mapping_witness :
    (onLoginCalls (LoginModal.submit (.num 1) (js "a@x.com") (js "password123")
        (fun _ => .resolved (.obj [(js "token", .str (js "T1")),
          (js "role", .str (js "owner")), (js "currentSessionId", .str (js "S1"))]))
        (fun _ => none))
      = [.obj [(js "accessToken", .str (js "T1")), (js "role", .str (js "owner")),
               (js "currentSessionId", .str (js "S1"))]] ∧
     errWrites (LoginModal.submit (.num 1) (js "a@x.com") (js "password123")
        (fun _ => .resolved (.obj [(js "token", .str (js "T1")),
          (js "role", .str (js "owner")), (js "currentSessionId", .str (js "S1"))]))
        (fun _ => none)) = []) ∧
    onLoginCalls (LoginModal.submit (.num 1) (js "a@x.com") (js "password123")
      (fun _ => .rejected (.prim (.str (js "401")))) (fun _ => none)) = [] :=
  have h := (C4_login_result_mapping (.num 1) (js "a@x.com") (js "password123")
      (fun _ => .resolved (.obj [(js "token", .str (js "T1")),
        (js "role", .str (js "owner")), (js "currentSessionId", .str (js "S1"))]))
      (fun _ => none)).1 _ rfl (by decide) (by decide)
  ⟨⟨h.1, h.2 rfl⟩,
   (C4_login_result_mapping (.num 1) (js "a@x.com") (js "password123")
      (fun _ => .rejected (.prim (.str (js "401")))) (fun _ => none)).2 _ rfl⟩

/-- C6: any two failing runs of `LoginModal.submit`, whatever the rejection
reasons, emails and passwords, end in the same user-visible error, the fixed
string "Login failed"; and no run at all, failing or not, ever writes anything
else to the error state, so nothing from the error is shown. -/
theorem C6_login_failure_uninformative (rid1 rid2 : Prim)
    (email1 password1 email2 password2 init1 init2 : JSString)
    (http1 http2 : Request → Outcome) (onLogin1 onLogin2 : JSVal → Option JSVal)
    (e1 e2 : JSVal)
    (h1 : http1 (login rid1 (.str email1) (.str password1)) = .rejected e1)
    (h2 : http2 (login rid2 (.str email2) (.str password2)) = .rejected e2) :
    LoginModal.errorShown
        (errAfter init1 (LoginModal.submit rid1 email1 password1 http1 onLogin1))
      = some (js "Login failed") ∧
    LoginModal.errorShown
        (errAfter init2 (LoginModal.submit rid2 email2 password2 http2 onLogin2))
      = some (js "Login failed") ∧
    (∀ (rid : Prim) (email password : JSString) (http : Request → Outcome)
        (onLogin : JSVal → Option JSVal),
      ∀ s ∈ errWrites (LoginModal.submit rid email password http onLogin),
        s = js "Login failed") := by
  refine ⟨?_, ?_, ?_⟩
  · simp only [LoginModal.submit, h1]
    rfl
  · simp only [LoginModal.submit, h2]
    rfl
  · intro rid email password http onLogin s hs
    simp only [LoginModal.submit] at hs
    cases hh : http (login rid (.str email) (.str password)) with
    | pending =>
      rw [hh] at hs
      simp [errWrites] at hs
    | rejected e =>
      rw [hh] at hs
      simpa [errWrites] using hs
    | resolved res =>
      rw [hh] at hs
      simp only at hs
      cases ht : res.get (js "token") <;> cases hr : res.get (js "role") <;>
        cases hc : res.get (js "currentSessionId") <;> rw [ht, hr, hc] at hs <;>
        simp only at hs
      case some.some.some token role sid =>
        cases ho : onLogin (.obj [(js "accessToken", token), (js "role", role),
            (js "currentSessionId", sid)]) <;> rw [ho] at hs
        · simp [errWrites] at hs
        · simpa [errWrites] using hs
      all_goals simpa [errWrites] using hs

/-- Witness for C6: a 401 for one account and a network error for another. -/
theorem C6_login_failure_uninformative_witness :
    LoginModal.errorShown
        (errAfter [] (LoginModal.submit (.num 1) (js "a@x.com") (js "wrong")
          (fun _ => .rejected (.obj [(js "status", .num 401),
            (js "message", .str (js "no such email"))])) (fun _ => none)))
      = some (js "Login failed") ∧
    LoginModal.errorShown
        (errAfter (js "old") (LoginModal.submit (.str (js "2")) (js "b@y.org") (js "pw")
          (fun _ => .rejected (.prim (.str (js "Network Error")))) (fun _ => none)))
      = some (js "Login failed") :=
  have h := C6_login_failure_uninformative (.num 1) (.str (js "2")) (js "a@x.com")
    (js "wrong") (js "b@y.org") (js "pw") [] (js "old")
    (fun _ => .rejected (.obj [(js "status", .num 401),
      (js "message", .str (js "no such email"))]))
    (fun _ => .rejected (.prim (.str (js "Network Error"))))
    (fun _ => none) (fun _ => none) _ _ rfl rfl
  ⟨h.1, h.2.1⟩

/-! ## C5: PasswordResetRequest -/

/-- C5: any two runs of `PasswordResetRequest.submit` with a non-empty email in
which the request resolves end with the same status, the fixed string
"If that email exists, a reset link has been sent.", whatever the emails, the
restaurant ids and the response data are. -/
theorem C5_reset_request_status_fixed
    (rid1 email1 init1 rid2 email2 init2 : JSString)
    (http1 http2 : Request → Outcome) (d1 d2 : JSVal)
    (hne1 : email1 ≠ []) (hne2 : email2 ≠ [])
    (h1 : http1 (requestPasswordReset (parseInt10 rid1) (.str email1)) = .resolved d1)
    (h2 : http2 (requestPasswordReset (parseInt10 rid2) (.str email2)) = .resolved d2) :
    statusAfter init1 (PasswordResetRequest.submit rid1 email1 http1)
      = js "If that email exists, a reset link has been sent." ∧
    statusAfter init2 (PasswordResetRequest.submit rid2 email2 http2)
      = js "If that email exists, a reset link has been sent." := by
  have t1 : (Prim.str email1).truthy = true := by
    cases email1 with
    | nil => exact absurd rfl hne1
    | cons _ _ => rfl
  have t2 : (Prim.str email2).truthy = true := by
    cases email2 with
    | nil => exact absurd rfl hne2
    | cons _ _ => rfl
  simp only [PasswordResetRequest.submit, t1, t2, h1, h2]
  exact ⟨rfl, rfl⟩

/-- Witness for C5: two different emails, restaurant ids and server replies. -/
theorem C5_reset_request_status_fixed_witness :
    statusAfter [] (PasswordResetRequest.submit (js "1") (js "known@x.com")
        (fun _ => .resolved (.obj [(js "ok", .bool true)])))
      = js "If that email exists, a reset link has been sent." ∧
    statusAfter (js "Enter your email")
        (PasswordResetRequest.submit (js "seven") (js "unknown@y.org")
          (fun _ => .resolved (.prim (.str (js "no such account")))))
      = js "If that email exists, a reset link has been sent." :=
  C5_reset_request_status_fixed (js "1") (js "known@x.com") [] (js "seven")
    (js "unknown@y.org") (js "Enter your email")
    (fun _ => .resolved (.obj [(js "ok", .bool true)]))
    (fun _ => .resolved (.prim (.str (js "no such account")))) _ _
    (by decide) (by decide) rfl rfl

/-! ## C2, C3: the wire contract of api.js -/

/-- C2: every bearer-authenticated identity helper of api.js builds the request
of the wire contract: `verify` is GET /verify, `adminInvite` is
POST /admin/invite/{r} with body `{email, role}`, `adminGetSessions` is
GET /admin/sessions/{r}, `adminRevokeSession` is POST /admin/sessions/revoke with
body `{sessionId}`, `adminRevokeOtherSessions` is POST /admin/sessions/revoke_all
with the empty object as body; each carries the header Authorization equal to
"Bearer " followed by the token, unchanged.  The segment {r} is what the
template literal makes of `r`: a string id unchanged, the Number 1 as "1", the
Number 10^21 as "1e+21". -/
theorem C2_bearer_wire_contract (t : JSString) (r e role s : Prim) :
    ((verify (.str t)).method = .GET ∧ (verify (.str t)).url = js "/verify" ∧
      (verify (.str t)).data = none ∧
      (verify (.str t)).header (js "Authorization") = some (js "Bearer " ++ t)) ∧
    ((adminInvite r e role (.str t)).method = .POST ∧
      (adminInvite r e role (.str t)).url = js "/admin/invite/" ++ r.toStr ∧
      (adminInvite r e role (.str t)).data
        = some (.obj [(js "email", e), (js "role", role)]) ∧
      (adminInvite r e role (.str t)).header (js "Authorization")
        = some (js "Bearer " ++ t)) ∧
    ((adminGetSessions r (.str t)).method = .GET ∧
      (adminGetSessions r (.str t)).url = js "/admin/sessions/" ++ r.toStr ∧
      (adminGetSessions r (.str t)).data = none ∧
      (adminGetSessions r (.str t)).header (js "Authorization")
        = some (js "Bearer " ++ t)) ∧
    ((adminRevokeSession s (.str t)).method = .POST ∧
      (adminRevokeSession s (.str t)).url = js "/admin/sessions/revoke" ∧
      (adminRevokeSession s (.str t)).data = some (.obj [(js "sessionId", s)]) ∧
      (adminRevokeSession s (.str t)).header (js "Authorization")
        = some (js "Bearer " ++ t)) ∧
    ((adminRevokeOtherSessions (.str t)).method = .POST ∧
      (adminRevokeOtherSessions (.str t)).url = js "/admin/sessions/revoke_all" ∧
      (adminRevokeOtherSessions (.str t)).data = some (.obj []) ∧
      (adminRevokeOtherSessions (.str t)).header (js "Authorization")
        = some (js "Bearer " ++ t)) ∧
    ((∀ rid : JSString,
        (adminInvite (.str rid) e role (.str t)).url = js "/admin/invite/" ++ rid ∧
        (adminGetSessions (.str rid) (.str t)).url = js "/admin/sessions/" ++ rid) ∧
      (adminInvite (.num 1) e role (.str t)).url = js "/admin/invite/1" ∧
      (adminGetSessions (.num 1) (.str t)).url = js "/admin/sessions/1" ∧
      (adminInvite (.num (10 ^ 21)) e role (.str t)).url = js "/admin/invite/1e+21" ∧
      (adminGetSessions (.num (10 ^ 21)) (.str t)).url
        = js "/admin/sessions/1e+21") := by
  have h1 : (Prim.num 1).toStr = js "1" := by decide
  have h21 : (Prim.num (10 ^ 21)).toStr = js "1e+21" := by decide!
  have hi1 : js "/admin/invite/" ++ js "1" = js "/admin/invite/1" := by decide
  have hs1 : js "/admin/sessions/" ++ js "1" = js "/admin/sessions/1" := by decide
  have hi21 : js "/admin/invite/" ++ js "1e+21" = js "/admin/invite/1e+21" := by decide
  have hs21 : js "/admin/sessions/" ++ js "1e+21" = js "/admin/sessions/1e+21" := by
    decide
  refine ⟨⟨rfl, rfl, rfl, rfl⟩, ⟨rfl, rfl, rfl, rfl⟩, ⟨rfl, rfl, rfl, rfl⟩,
    ⟨rfl, rfl, rfl, rfl⟩, ⟨rfl, rfl, rfl, rfl⟩, fun _ => ⟨rfl, rfl⟩, ?_, ?_, ?_, ?_⟩
  · show js "/admin/invite/" ++ (Prim.num 1).toStr = _
    rw [h1, hi1]
  · show js "/admin/sessions/" ++ (Prim.num 1).toStr = _
    rw [h1, hs1]
  · show js "/admin/invite/" ++ (Prim.num (10 ^ 21)).toStr = _
    rw [h21, hi21]
  · show js "/admin/sessions/" ++ (Prim.num (10 ^ 21)).toStr = _
    rw [h21, hs21]

/-- C3: every unauthenticated identity helper of api.js builds the request of
the wire contract and sets no header at all, so no Authorization header:
`login` is POST /login with body `{restaurantId, email, password}`,
`acceptInvite` is POST /admin/invite/accept with body `{token, password}`,
`requestPasswordReset` is POST /admin/password_reset/request with body
`{restaurantId, email}`, `confirmPasswordReset` is
POST /admin/password_reset/confirm with body `{token, password}`, and
`refreshSession` and `logout` are POST /refresh and POST /logout without a body.
The arguments appear in the body unmodified. -/
theorem C3_unauthenticated_wire_contract (r e p tok : Prim) :
    (login r e p =
        { method := .POST, url := js "/login",
          data := some (.obj [(js "restaurantId", r), (js "email", e),
                              (js "password", p)]),
          headers := [] } ∧
      (login r e p).header (js "Authorization") = none) ∧
    (acceptInvite tok p =
        { method := .POST, url := js "/admin/invite/accept",
          data := some (.obj [(js "token", tok), (js "password", p)]),
          headers := [] } ∧
      (acceptInvite tok p).header (js "Authorization") = none) ∧
    (requestPasswordReset r e =
        { method := .POST, url := js "/admin/password_reset/request",
          data := some (.obj [(js "restaurantId", r), (js "email", e)]),
          headers := [] } ∧
      (requestPasswordReset r e).header (js "Authorization") = none) ∧
    (confirmPasswordReset tok p =
        { method := .POST, url := js "/admin/password_reset/confirm",
          data := some (.obj [(js "token", tok), (js "password", p)]),
          headers := [] } ∧
      (confirmPasswordReset tok p).header (js "Authorization") = none) ∧
    (refreshSession =
        { method := .POST, url := js "/refresh", data := none, headers := [] } ∧
      refreshSession.header (js "Authorization") = none) ∧
    (logout =
        { method := .POST, url := js "/logout", data := none, headers := [] } ∧
      logout.header (js "Authorization") = none) := by
  refine ⟨⟨rfl, rfl⟩, ⟨rfl, rfl⟩, ⟨rfl, rfl⟩, ⟨rfl, rfl⟩, ⟨rfl, rfl⟩, ⟨rfl, rfl⟩⟩

/-! ## C7, C9: ActiveSessions -/

theorem toRows_ActiveSessions_array (xs : List Session) (cur : Prim) :
    (ActiveSessions (.array xs) cur).toRows = xs.map (renderRow cur) := by
  cases xs with
  | nil => rfl
  | cons x xs => rfl

/-- C7, as stated, fails: given a session created at time 1 followed by a
session created at time 2, the rows are rendered in that same order, which is
increasing in `createdAt`. -/
theorem C7_rows_not_sorted_counterexample :
    ¬ List.Sorted (fun a b : Int => a ≥ b)
      ((ActiveSessions (.array
          [{ id := .str (js "S1"), adminEmail := .str (js "a@x.com"), createdAt := 1,
             expiresAt := .null, ip := .null, userAgent := .str (js "UA"),
             revoked := .bool false },
           { id := .str (js "S2"), adminEmail := .str (js "a@x.com"), createdAt := 2,
             expiresAt := .null, ip := .null, userAgent := .str (js "UA"),
             revoked := .bool false }])
        (.str (js "S1"))).toRows.map Row.created) := by
  decide

/-- C7, amended: the component does not sort.  For every sessions list passed to
`ActiveSessions` the rendered rows are the sessions in the order given, one row
per session; so the rows are in non-increasing order of `createdAt` exactly when
the list passed in is. -/
theorem C7_rows_in_given_order (xs : List Session) (cur : Prim) :
    (ActiveSessions (.array xs) cur).toRows.map Row.key = xs.map Session.id ∧
    (ActiveSessions (.array xs) cur).toRows.map Row.created
      = xs.map Session.createdAt ∧
    (List.Sorted (fun a b : Int => a ≥ b)
        ((ActiveSessions (.array xs) cur).toRows.map Row.created) ↔
      List.Sorted (fun a b : Int => a ≥ b) (xs.map Session.createdAt)) := by
  have hk : (ActiveSessions (.array xs) cur).toRows.map Row.key = xs.map Session.id := by
    rw [toRows_ActiveSessions_array, List.map_map]
    rfl
  have hc : (ActiveSessions (.array xs) cur).toRows.map Row.created
      = xs.map Session.createdAt := by
    rw [toRows_ActiveSessions_array, List.map_map]
    rfl
  exact ⟨hk, hc, by rw [hc]⟩

/-- C9: for every non-empty sessions list and every `currentSessionId`, the
view consists of one row per session, in order, and the row of a session `s`
has a Revoke control if and only if `s.revoked` is falsy and
`s.id !== currentSessionId`; activating it calls `onRevoke` with exactly `s.id`.
Hence no control invokes `onRevoke` with a value strictly equal to
`currentSessionId` (nor, `NaN` aside, equal to it).  For an empty, `null` or
absent list the view is "No active sessions": no row and no control. -/
theorem C9_revoke_control (xs : List Session) (cur : Prim) :
    (xs ≠ [] →
      ∃ rs, ActiveSessions (.array xs) cur = .rows rs ∧
        List.Forall₂
          (fun s r =>
            (r.revoke.isSome = true ↔
              (s.revoked.truthy = false ∧ s.id.strictEq cur = false)) ∧
            (r.revoke = none ∨ r.revoke = some s.id))
          xs rs ∧
        (∀ r ∈ rs, ∀ a, r.revoke = some a →
          a.strictEq cur = false ∧ (cur ≠ .nan → a ≠ cur))) ∧
    (ActiveSessions (.array []) cur = .noActiveSessions ∧
      ActiveSessions .null cur = .noActiveSessions ∧
      ActiveSessions .undefined cur = .noActiveSessions ∧
      View.noActiveSessions.toRows = []) := by
  refine ⟨?_, rfl, rfl, rfl, rfl⟩
  intro hne
  refine ⟨xs.map (renderRow cur), ?_, ?_, ?_⟩
  · cases xs with
    | nil => exact absurd rfl hne
    | cons x xs => rfl
  · rw [List.forall₂_map_right_iff]
    apply List.forall₂_same.mpr
    intro s _
    simp only [renderRow]
    cases hr : s.revoked.truthy <;> cases hc : s.id.strictEq cur <;> simp
  · intro r hr a ha
    obtain ⟨s, _, rfl⟩ := List.mem_map.mp hr
    simp only [renderRow] at ha
    have hnot : s.id.strictEq cur = false ∧ a = s.id := by
      cases h1 : s.revoked.truthy <;> cases h2 : s.id.strictEq cur <;>
        simp [h1, h2] at ha
      exact ⟨rfl, ha.symm⟩
    obtain ⟨hstrict, rfl⟩ := hnot
    refine ⟨hstrict, ?_⟩
    intro hnan heq
    rw [heq] at hstrict
    cases cur <;> simp [Prim.strictEq] at hstrict
    exact hnan rfl

/-- Witness for C9: the current session, a revoked one and another active one;
only the last one gets a Revoke control. -/
theorem C9_revoke_control_witness :
    ([{ id := .str (js "S1"), adminEmail := .str (js "a@x.com"), createdAt := 3,
        expiresAt := .null, ip := .null, userAgent := .str (js "UA"),
        revoked := .bool false },
      { id := .str (js "S2"), adminEmail := .str (js "a@x.com"), createdAt := 2,
        expiresAt := .null, ip := .null, userAgent := .str (js "UA"),
        revoked := .bool true },
      { id := .str (js "S3"), adminEmail := .str (js "a@x.com"), createdAt := 1,
        expiresAt := .null, ip := .null, userAgent := .str (js "UA"),
        revoked := .bool false }] : List Session) ≠ [] ∧
    ∃ rs, ActiveSessions (.array
        [{ id := .str (js "S1"), adminEmail := .str (js "a@x.com"), createdAt := 3,
           expiresAt := .null, ip := .null, userAgent := .str (js "UA"),
           revoked := .bool false },
         { id := .str (js "S2"), adminEmail := .str (js "a@x.com"), createdAt := 2,
           expiresAt := .null, ip := .null, userAgent := .str (js "UA"),
           revoked := .bool true },
         { id := .str (js "S3"), adminEmail := .str (js "a@x.com"), createdAt := 1,
           expiresAt := .null, ip := .null, userAgent := .str (js "UA"),
           revoked := .bool false }]) (.str (js "S1")) = .rows rs ∧
      rs.map Row.revoke = [none, none, some (.str (js "S3"))] :=
  ⟨by decide,
   (((C9_revoke_control
      [{ id := .str (js "S1"), adminEmail := .str (js "a@x.com"), createdAt := 3,
         expiresAt := .null, ip := .null, userAgent := .str (js "UA"),
         revoked := .bool false },
       { id := .str (js "S2"), adminEmail := .str (js "a@x.com"), createdAt := 2,
         expiresAt := .null, ip := .null, userAgent := .str (js "UA"),
         revoked := .bool true },
       { id := .str (js "S3"), adminEmail := .str (js "a@x.com"), createdAt := 1,
         expiresAt := .null, ip := .null, userAgent := .str (js "UA"),
         revoked := .bool false }] (.str (js "S1"))).1 (by decide)).imp
     (fun rs h => ⟨h.1, by
       have h1 := h.1
       simp only [ActiveSessions] at h1
       injection h1 with h1
       rw [← h1]
       decide⟩))⟩

end Resto
